import Mathlib

/-!
Verification of the MotorizedJointer firmware core (SimpleBoxCutter.ino and
CustomizableBoxCutter.ino).  All distance variables in the firmware are
`uint16_t` values in thousandths of an inch; we model them as `Nat` with
explicit reduction modulo 2^16 = 65536 wherever the C arithmetic wraps.
-/

/-- Addition of two `uint16_t` values: the sum reduced modulo 2^16. -/
def add16 (a b : Nat) : Nat := (a + b) % 65536

/-- Unary minus on a `uint16_t` value, as in the C expression `-slop`. -/
def neg16 (a : Nat) : Nat := (65536 - a % 65536) % 65536

/-- Subtraction of `uint16_t` values, as in `distanceRemainingToCut -= m`. -/
def sub16 (a b : Nat) : Nat := (a + (65536 - b % 65536)) % 65536

/-- The four distances computed by `determineMovementValues` (DTM stands for
distance to move): the initial and subsequent valley and finger distances. -/
structure MovementValues where
  initialDTMValley : Nat
  initialDTMFinger : Nat
  subDTMValley : Nat
  subDTMFinger : Nat
deriving DecidableEq, Repr

/-- Shallow embedding of `determineMovementValues(uint16_t valleySize,
uint16_t fingerSize)` from CustomizableBoxCutter.ino (lines 505-517):

  initialDTMValley  =  valleySize   +  slop    + 0;
  initialDTMFinger  =  fingerSize   + -slop    + kerf;
  subDTMValley      =  valleySize   +  slop    + -kerf;
  subDTMFinger      =  fingerSize   + -slop    + kerf;

The globals `slop` and `kerf` are explicit arguments here. -/
def determineMovementValuesCustom (valleySize fingerSize slop kerf : Nat) :
    MovementValues :=
  { initialDTMValley := add16 (add16 valleySize slop) 0
  , initialDTMFinger := add16 (add16 fingerSize (neg16 slop)) kerf
  , subDTMValley := add16 (add16 valleySize slop) (neg16 kerf)
  , subDTMFinger := add16 (add16 fingerSize (neg16 slop)) kerf }

/-- Shallow embedding of `determineMovementValues(uint16_t slotSize)` from
SimpleBoxCutter.ino (lines 387-397), where valley and finger share the one
slot size:

  initialDTMValley  =  slotSize     +  slop    + 0;
  initialDTMFinger  =  slotSize     + -slop    + kerf;
  subDTMValley      =  slotSize     +  slop    + -kerf;
  subDTMFinger      =  slotSize     + -slop    + kerf;
-/
def determineMovementValues (slotSize slop kerf : Nat) : MovementValues :=
  { initialDTMValley := add16 (add16 slotSize slop) 0
  , initialDTMFinger := add16 (add16 slotSize (neg16 slop)) kerf
  , subDTMValley := add16 (add16 slotSize slop) (neg16 kerf)
  , subDTMFinger := add16 (add16 slotSize (neg16 slop)) kerf }

/-- Claim C1: for every `slotWidth`, `kerf`, `slop` (16-bit values), the
quadruple computed by `determineMovementValues` satisfies, in 16-bit unsigned
arithmetic, `initialCutDistance = slotWidth + slop`,
`initialMoveDistance = slotWidth - slop + kerf`,
`subsequentCutDistance = slotWidth + slop - kerf` and
`subsequentMoveDistance = slotWidth - slop + kerf`; under the preconditions
`slop*2 <= slotWidth` and `slop <= slotWidth + kerf` the identities
`subsequentCutDistance + kerf == slotWidth + slop` and
`subsequentMoveDistance == slotWidth - slop + kerf` hold, and the
customizable variant with `valleyWidth = fingerWidth = slotWidth` computes
the same quadruple. -/
theorem quadruple_spec (slotWidth kerf slop : Nat)
    (hs : slotWidth < 65536) (hk : kerf < 65536) (hp : slop < 65536)
    (h1 : slop * 2 ≤ slotWidth) (h2 : slop ≤ slotWidth + kerf) :
    (determineMovementValues slotWidth slop kerf).initialDTMValley
      = (slotWidth + slop) % 65536 ∧
    (determineMovementValues slotWidth slop kerf).initialDTMFinger
      = (slotWidth + kerf - slop) % 65536 ∧
    (determineMovementValues slotWidth slop kerf).subDTMValley
      = (slotWidth + slop + (65536 - kerf)) % 65536 ∧
    (determineMovementValues slotWidth slop kerf).subDTMFinger
      = (slotWidth + kerf - slop) % 65536 ∧
    add16 ((determineMovementValues slotWidth slop kerf).subDTMValley) kerf
      = (determineMovementValues slotWidth slop kerf).initialDTMValley ∧
    determineMovementValuesCustom slotWidth slotWidth slop kerf
      = determineMovementValues slotWidth slop kerf := by
  refine ⟨?_, ?_, ?_, ?_, ?_, rfl⟩ <;>
    simp only [determineMovementValues, add16, neg16] <;> omega

/-- The mutable cut-session state of the firmware: the globals
`distanceRemainingToCut` and `distanceRemainingToMove`. -/
structure CutState where
  cut : Nat
  move : Nat
deriving DecidableEq, Repr

/-- Shallow embedding of the helper `uint16_t d()` in both .ino files:
`if (distanceRemainingToCut > maxAdvance) return maxAdvance; else return
distanceRemainingToCut;` with the two globals it reads made explicit. -/
def d (distanceRemainingToCut maxAdvance : Nat) : Nat :=
  if distanceRemainingToCut > maxAdvance then maxAdvance
  else distanceRemainingToCut

/-- Shallow embedding of `setupForCut(bool cutFirst)` (SimpleBoxCutter.ino
lines 487-498, CustomizableBoxCutter.ino lines 623-635; both bodies are
identical): cut-first seeds `distanceRemainingToCut = initialDTMValley` and
`distanceRemainingToMove = subDTMFinger`; move-first seeds
`distanceRemainingToCut = 0` and `distanceRemainingToMove =
initialDTMFinger`. -/
def setupForCut (cutFirst : Bool) (q : MovementValues) : CutState :=
  if cutFirst then
    { cut := q.initialDTMValley, move := q.subDTMFinger }
  else
    { cut := 0, move := q.initialDTMFinger }

/-- What the advance press asks the motion driver to do: either a bounded
cut pass of the given distance or the large relocation move, always via
`moveStepper(dist, 1)`, i.e. in the cutting direction. -/
inductive MoveAction where
  | cutPass : Nat → MoveAction
  | relocate : Nat → MoveAction
deriving DecidableEq, Repr

/-- Shallow embedding of the advance-press (right button) branch of
`showCutMenu` in SimpleBoxCutter.ino (lines 785-804).  If
`distanceRemainingToCut == 0` the firmware performs
`moveStepper(distanceRemainingToMove, 1)` and reloads the subsequent pair
from the quadruple; otherwise it computes `m = d()`, does
`distanceRemainingToCut -= m` (uint16 subtraction) and
`moveStepper(m, 1)`. -/
def advancePress (maxAdvance : Nat) (q : MovementValues) (s : CutState) :
    CutState × MoveAction :=
  if s.cut = 0 then
    ({ cut := q.subDTMValley, move := q.subDTMFinger },
      MoveAction.relocate s.move)
  else
    ({ cut := sub16 s.cut (d s.cut maxAdvance), move := s.move },
      MoveAction.cutPass (d s.cut maxAdvance))

/-- The state after an advance press, discarding the motion request. -/
def advanceState (maxAdvance : Nat) (q : MovementValues) (s : CutState) :
    CutState :=
  (advancePress maxAdvance q s).1

/-- Iterated advance presses. -/
def iteratePress (maxAdvance : Nat) (q : MovementValues) :
    Nat → CutState → CutState
  | 0, s => s
  | n + 1, s => iteratePress maxAdvance q n (advanceState maxAdvance q s)

/-- Claim C2: from a state with `remainingCutDistance > 0`, one advance
press issues a cut pass of exactly `min(remainingCutDistance, maxAdvance)`,
decrements `remainingCutDistance` by that amount, stays in the cutting
phase unless the new remainder is exactly 0, and in that case the next
press issues the relocation move. -/
theorem cutPass_step (maxAdvance : Nat) (q : MovementValues) (s : CutState)
    (h0 : 0 < s.cut) (h1 : s.cut < 65536) :
    d s.cut maxAdvance = min s.cut maxAdvance ∧
    (advancePress maxAdvance q s).2
      = MoveAction.cutPass (min s.cut maxAdvance) ∧
    (advancePress maxAdvance q s).1.cut
      = s.cut - min s.cut maxAdvance ∧
    (advancePress maxAdvance q s).1.move = s.move ∧
    ((advancePress maxAdvance q s).1.cut ≠ 0 →
      (advancePress maxAdvance q
          (advancePress maxAdvance q s).1).2
        = MoveAction.cutPass
            (d (advancePress maxAdvance q s).1.cut maxAdvance)) ∧
    ((advancePress maxAdvance q s).1.cut = 0 →
      (advancePress maxAdvance q
          (advancePress maxAdvance q s).1).2
        = MoveAction.relocate s.move) := by
  have hd : d s.cut maxAdvance = min s.cut maxAdvance := by
    simp only [d]; split <;> omega
  have hne : ¬ s.cut = 0 := by omega
  have hsub : sub16 s.cut (min s.cut maxAdvance)
      = s.cut - min s.cut maxAdvance := by
    rw [sub16]; omega
  have hstate : advancePress maxAdvance q s
      = ({ cut := s.cut - min s.cut maxAdvance, move := s.move },
          MoveAction.cutPass (min s.cut maxAdvance)) := by
    rw [advancePress, if_neg hne, hd, hsub]
  refine ⟨hd, ?_, ?_, ?_, ?_, ?_⟩
  · rw [hstate]
  · rw [hstate]
  · rw [hstate]
  · intro h
    rw [hstate] at h ⊢
    simp only [advancePress, if_neg h]
  · intro h
    rw [hstate] at h ⊢
    have h2 : s.cut - min s.cut maxAdvance = 0 := h
    simp [advancePress, h2]

/-- Witness for `cutPass_step` at `maxAdvance = 120` and the seeded state
of the 500/123/2 configuration. -/
theorem cutPass_step_witness :
    ((0 : Nat) < 502 ∧ (502 : Nat) < 65536) ∧
    (d 502 120 = min 502 120 ∧
    (advancePress 120 (determineMovementValues 500 2 123)
        { cut := 502, move := 621 }).2
      = MoveAction.cutPass (min 502 120) ∧
    (advancePress 120 (determineMovementValues 500 2 123)
        { cut := 502, move := 621 }).1.cut = 502 - min 502 120 ∧
    (advancePress 120 (determineMovementValues 500 2 123)
        { cut := 502, move := 621 }).1.move = 621 ∧
    ((advancePress 120 (determineMovementValues 500 2 123)
        { cut := 502, move := 621 }).1.cut ≠ 0 →
      (advancePress 120 (determineMovementValues 500 2 123)
          (advancePress 120 (determineMovementValues 500 2 123)
            { cut := 502, move := 621 }).1).2
        = MoveAction.cutPass
            (d (advancePress 120 (determineMovementValues 500 2 123)
              { cut := 502, move := 621 }).1.cut 120)) ∧
    ((advancePress 120 (determineMovementValues 500 2 123)
        { cut := 502, move := 621 }).1.cut = 0 →
      (advancePress 120 (determineMovementValues 500 2 123)
          (advancePress 120 (determineMovementValues 500 2 123)
            { cut := 502, move := 621 }).1).2
        = MoveAction.relocate 621)) :=
  ⟨⟨by decide, by decide⟩,
    cutPass_step 120 (determineMovementValues 500 2 123)
      { cut := 502, move := 621 } (by decide) (by decide)⟩

/-- The motion requests issued by a given number of consecutive advance
presses, in order. -/
def pressActions (maxAdvance : Nat) (q : MovementValues) :
    Nat → CutState → List MoveAction
  | 0, _ => []
  | n + 1, s =>
      (advancePress maxAdvance q s).2 ::
        pressActions maxAdvance q n (advancePress maxAdvance q s).1

/-- The quadruple for the recorded configuration `slotWidth = 500`,
`slop = 2`, `kerf = 123` of SimpleBoxCutter.ino. -/
def movement500 : MovementValues := determineMovementValues 500 2 123

/-- The session state seeded by `setupForCut(true)` for `movement500`. -/
def session500 : CutState := setupForCut true movement500

/-- Claim C3 counterexample: with `slotWidth = 500`, `kerf = 123`,
`slop = 2` and `maxAdvance = 120`, the first advance press after
`remainingCutDistance` reaches 0 issues a relocation move of 621 (the
seeded `distanceRemainingToMove = subDTMFinger = 500 - 2 + 123`), not the
619 claimed. -/
theorem trace500_counterexample :
    session500.move = 621 ∧
    (advancePress 120 movement500
        (iteratePress 120 movement500 5 session500)).2
      = MoveAction.relocate 621 ∧
    MoveAction.relocate 621 ≠ MoveAction.relocate 619 := by
  decide

/-- Claim C3 (amended): starting a session in cut-first mode with
`slotWidth = 500`, `kerf = 123`, `slop = 2` seeds
`remainingCutDistance = 502`; with `maxAdvance = 120`, five advance presses
consume it in passes of 120, 120, 120, 120, 22 reaching 0; and the next
advance press issues a relocation move of `500 - 2 + 123 = 621`. -/
theorem trace500_amended :
    session500.cut = 502 ∧
    pressActions 120 movement500 5 session500
      = [MoveAction.cutPass 120, MoveAction.cutPass 120,
         MoveAction.cutPass 120, MoveAction.cutPass 120,
         MoveAction.cutPass 22] ∧
    (iteratePress 120 movement500 5 session500).cut = 0 ∧
    (advancePress 120 movement500
        (iteratePress 120 movement500 5 session500)).2
      = MoveAction.relocate (500 - 2 + 123) := by
  decide

/-- Claim C8: for every computed quadruple, cut-first seeding sets
`remainingCutDistance = initialCutDistance` and `remainingMoveDistance`
equal to the initial move distance (the value seeded is `subDTMFinger`,
which always equals `initialDTMFinger`), while move-first seeding sets
`remainingCutDistance = 0` and `remainingMoveDistance =
initialDTMFinger`.  Both firmware variants agree. -/
theorem setupForCut_seeds (valleySize fingerSize slotSize slop kerf : Nat) :
    setupForCut true (determineMovementValuesCustom valleySize fingerSize slop kerf)
      = { cut := (determineMovementValuesCustom valleySize fingerSize slop kerf).initialDTMValley,
          move := (determineMovementValuesCustom valleySize fingerSize slop kerf).initialDTMFinger } ∧
    setupForCut false (determineMovementValuesCustom valleySize fingerSize slop kerf)
      = { cut := 0,
          move := (determineMovementValuesCustom valleySize fingerSize slop kerf).initialDTMFinger } ∧
    (determineMovementValuesCustom valleySize fingerSize slop kerf).subDTMFinger
      = (determineMovementValuesCustom valleySize fingerSize slop kerf).initialDTMFinger ∧
    setupForCut true (determineMovementValues slotSize slop kerf)
      = { cut := (determineMovementValues slotSize slop kerf).initialDTMValley,
          move := (determineMovementValues slotSize slop kerf).initialDTMFinger } ∧
    setupForCut false (determineMovementValues slotSize slop kerf)
      = { cut := 0,
          move := (determineMovementValues slotSize slop kerf).initialDTMFinger } :=
  ⟨rfl, rfl, rfl, rfl, rfl⟩

/-- The remaining cut distance after a given number of cut passes, using
the uint16 subtraction `distanceRemainingToCut -= d()` of the firmware. -/
def cutIterate (maxAdvance : Nat) : Nat → Nat → Nat
  | 0, c => c
  | n + 1, c => cutIterate maxAdvance n (sub16 c (d c maxAdvance))

theorem cutIterate_eq_zero (maxAdvance : Nat) (ha : 1 ≤ maxAdvance) :
    ∀ n c, c ≤ n → c < 65536 → cutIterate maxAdvance n c = 0 := by
  intro n
  induction n with
  | zero =>
    intro c hc _
    have hc0 : c = 0 := by omega
    subst hc0
    rfl
  | succ n ih =>
    intro c hc hlt
    rw [cutIterate]
    have hdle : d c maxAdvance ≤ c ∧ (0 < c → 0 < d c maxAdvance) := by
      simp only [d]; split <;> omega
    have hs : sub16 c (d c maxAdvance) = c - d c maxAdvance := by
      rw [sub16]; omega
    rw [hs]
    exact ih _ (by omega) (by omega)

/-- Claim C9: the bounded pass length `d()` never exceeds
`distanceRemainingToCut`, so the unsigned subtraction never wraps; the
remaining distance strictly decreases on every press from a positive
value; and with `maxAdvance >= 1` repeated presses reach exactly 0 in
finitely many presses (at most `c` of them). -/
theorem cut_invariant (maxAdvance c mv : Nat) (q : MovementValues)
    (ha : 1 ≤ maxAdvance) (hc : c < 65536) :
    d c maxAdvance ≤ c ∧
    sub16 c (d c maxAdvance) = c - d c maxAdvance ∧
    (0 < c → sub16 c (d c maxAdvance) < c) ∧
    (0 < c →
      (advancePress maxAdvance q { cut := c, move := mv }).1.cut < c) ∧
    cutIterate maxAdvance c c = 0 := by
  have hdle : d c maxAdvance ≤ c ∧ (0 < c → 0 < d c maxAdvance) := by
    simp only [d]; split <;> omega
  have hs : sub16 c (d c maxAdvance) = c - d c maxAdvance := by
    rw [sub16]; omega
  refine ⟨hdle.1, hs, by omega, ?_, cutIterate_eq_zero maxAdvance ha c c le_rfl hc⟩
  intro hpos
  have hne : ¬ ({ cut := c, move := mv } : CutState).cut = 0 := by
    simp only []; omega
  rw [advancePress, if_neg hne]
  simp only []
  omega

/-- Witness for `cut_invariant` at `maxAdvance = 120`, `c = 502`. -/
theorem cut_invariant_witness :
    ((1 : Nat) ≤ 120 ∧ (502 : Nat) < 65536) ∧
    (d 502 120 ≤ 502 ∧
    sub16 502 (d 502 120) = 502 - d 502 120 ∧
    ((0 : Nat) < 502 → sub16 502 (d 502 120) < 502) ∧
    ((0 : Nat) < 502 →
      (advancePress 120 (determineMovementValues 500 2 123)
          { cut := 502, move := 621 }).1.cut < 502) ∧
    cutIterate 120 502 502 = 0) :=
  ⟨⟨by decide, by decide⟩,
    cut_invariant 120 502 621 (determineMovementValues 500 2 123)
      (by decide) (by decide)⟩

/-- Shallow embedding of the cut-pass branch of `showCutMenu` together
with the completion result of `moveStepper` (SimpleBoxCutter.ino lines
796-804 and 304-330).  `moveStepper` returns false when the home limit
switch aborts the move early; the caller performs
`distanceRemainingToCut -= m` before `moveStepper(m, 1)` and discards the
returned boolean, so the resulting state does not depend on it. -/
def advancePressMove (maxAdvance : Nat) (q : MovementValues)
    (s : CutState) (moveCompleted : Bool) :
    CutState × MoveAction × Bool :=
  if s.cut = 0 then
    ({ cut := q.subDTMValley, move := q.subDTMFinger },
      MoveAction.relocate s.move, moveCompleted)
  else
    ({ cut := sub16 s.cut (d s.cut maxAdvance), move := s.move },
      MoveAction.cutPass (d s.cut maxAdvance), moveCompleted)

/-- Claim C5: the firmware decrements `distanceRemainingToCut` by the full
requested pass amount whether or not the move completed: the successor
state is identical for an aborted and a completed move, and at the
concrete failing input (`distanceRemainingToCut = 502`,
`maxAdvance = 120`, move aborted early) the remainder is still decremented
by the full 120 to 382.  This contradicts the required abort accounting,
exhibiting the code bug. -/
theorem abort_full_decrement (maxAdvance : Nat) (q : MovementValues)
    (s : CutState) :
    (advancePressMove maxAdvance q s false).1
      = (advancePressMove maxAdvance q s true).1 ∧
    (advancePressMove 120 (determineMovementValues 500 2 123)
        { cut := 502, move := 621 } false).1.cut = 502 - 120 ∧
    (advancePressMove 120 (determineMovementValues 500 2 123)
        { cut := 502, move := 621 } false).2.1
      = MoveAction.cutPass 120 := by
  refine ⟨?_, by decide, by decide⟩
  rw [advancePressMove, advancePressMove]
  split <;> rfl

/-- Shallow embedding of `getNextProgrammaticSlotSize()` from
CustomizableBoxCutter.ino (lines 978-986).  The global cursor
`programmaticIndex` is threaded explicitly: the cursor is incremented,
reset to 0 when it reaches `MAX_PROGRAMMATIC_SLOTS = 64` or hits a zero
entry, and the entry at the resulting cursor is returned together with the
new cursor.  The function takes no mode argument: positive and negative
cuts share it. -/
def getNextProgrammaticSlotSize (slots : List Nat) (programmaticIndex : Nat) :
    Nat × Nat :=
  let i := programmaticIndex + 1
  if 64 ≤ i ∨ slots.getD i 0 = 0 then (slots.getD 0 0, 0)
  else (slots.getD i 0, i)

/-- The reload performed in the relocation branch of `showCutMenu`
(CustomizableBoxCutter.ino lines 1053-1060): two consecutive calls of
`getNextProgrammaticSlotSize` produce the next (valley, finger) pair and
the advanced cursor. -/
def reloadPair (slots : List Nat) (programmaticIndex : Nat) :
    (Nat × Nat) × Nat :=
  (((getNextProgrammaticSlotSize slots programmaticIndex).1,
    (getNextProgrammaticSlotSize slots
      (getNextProgrammaticSlotSize slots programmaticIndex).2).1),
   (getNextProgrammaticSlotSize slots
      (getNextProgrammaticSlotSize slots programmaticIndex).2).2)

/-- The seed of a positive programmatic cut in `showCutTypeMenu`
(CustomizableBoxCutter.ino lines 831-841): `programmaticIndex = 1` and the
first pair is `(programmaticSlots[0], programmaticSlots[1])`. -/
def cutTypeSeedPositive (slots : List Nat) : (Nat × Nat) × Nat :=
  ((slots.getD 0 0, slots.getD 1 0), 1)

/-- The seed of a negative programmatic cut in `showCutTypeMenu`
(CustomizableBoxCutter.ino lines 846-856): `programmaticIndex = 0` and the
first pair is `(0, programmaticSlots[0])`. -/
def cutTypeSeedNegative (slots : List Nat) : (Nat × Nat) × Nat :=
  ((0, slots.getD 0 0), 0)

/-- The programmed pattern of the claim: slots 200, 300, 450, 300, 200
followed by the zero sentinel in a 64-entry array. -/
def patternExample : List Nat :=
  [200, 300, 450, 300, 200] ++ List.replicate 59 0

/-- Claim C4: with pattern `[200,300,450,300,200,0,...,0]`, positive mode
consumes `(200,300)`, `(450,300)`, `(200,200)` as its first three
(valley, finger) pairs, wrapping to index 0 for the final finger, and
negative mode consumes `(0,200)`, `(300,450)`, `(300,200)`. -/
theorem pattern_first_pairs :
    cutTypeSeedPositive patternExample = ((200, 300), 1) ∧
    reloadPair patternExample 1 = ((450, 300), 3) ∧
    reloadPair patternExample 3 = ((200, 200), 0) ∧
    cutTypeSeedNegative patternExample = ((0, 200), 0) ∧
    reloadPair patternExample 0 = ((300, 450), 2) ∧
    reloadPair patternExample 2 = ((300, 200), 4) := by
  decide

/-- Claim C7 counterexample: the resolver wraps in negative mode too.
After the three negative-mode pairs of `patternExample` the cursor is 4;
the next resolver call hits the zero sentinel at index 5 and wraps to
index 0, yielding the pair `(200, 300)` instead of stopping, exactly as in
positive mode. -/
theorem negative_wrap_counterexample :
    getNextProgrammaticSlotSize patternExample 4 = (200, 0) ∧
    reloadPair patternExample 4 = ((200, 300), 1) := by
  decide

/-- Claim C7 (amended): when the resolver advances past the populated slot
sequence (a zero entry, or past the maximum length 64) the cursor wraps to
the start of the pattern; the resolver takes no mode argument, so this
wrap applies in positive and negative mode alike. -/
theorem exhaustion_wraps (slots : List Nat) (programmaticIndex : Nat)
    (h : 64 ≤ programmaticIndex + 1 ∨ slots.getD (programmaticIndex + 1) 0 = 0) :
    getNextProgrammaticSlotSize slots programmaticIndex
      = (slots.getD 0 0, 0) := by
  rw [getNextProgrammaticSlotSize]
  simp only [if_pos h]

/-- Witness for `exhaustion_wraps` at the example pattern and cursor 4. -/
theorem exhaustion_wraps_witness :
    ((64 : Nat) ≤ 4 + 1 ∨ patternExample.getD (4 + 1) 0 = 0) ∧
    getNextProgrammaticSlotSize patternExample 4
      = (patternExample.getD 0 0, 0) :=
  ⟨by decide, exhaustion_wraps patternExample 4 (by decide)⟩

/-- Shallow embedding of `recalculateSlotSize()`
(CustomizableBoxCutter.ino lines 756-760, SimpleBoxCutter.ino lines
634-638): `lengthOfWood / numberOfSlots`, with no guard against a zero
divisor.  C integer division by zero is undefined behaviour; `Nat.div`
makes the embedding total while the theorems track the zero divisor
itself. -/
def recalculateSlotSize (lengthOfWood numberOfSlots : Nat) : Nat :=
  lengthOfWood / numberOfSlots

/-- The configuration values touched by the Fingers option of
`showConfigChangeValueMenu`. -/
structure ConfigState where
  lengthOfWood : Nat
  numberOfSlots : Nat
  uniformSlot : Nat
deriving DecidableEq, Repr

/-- Shallow embedding of the down-press on the Fingers option
(`configOption == 5`) of `showConfigChangeValueMenu`
(CustomizableBoxCutter.ino lines 942-944): `numberOfSlots =
numberOfSlots - 1` in uint16 arithmetic, then `uniformSlot =
recalculateSlotSize()`, with no lower bound on `numberOfSlots`. -/
def configDownNumberOfSlots (s : ConfigState) : ConfigState :=
  { lengthOfWood := s.lengthOfWood
  , numberOfSlots := sub16 s.numberOfSlots 1
  , uniformSlot :=
      recalculateSlotSize s.lengthOfWood (sub16 s.numberOfSlots 1) }

/-- Claim C10: decrementing `numberOfSlots` from 1 reaches 0, at which
point the slot-size recomputation runs `recalculateSlotSize` with divisor
0 (division by zero), and a further decrement wraps `numberOfSlots` to
65535. -/
theorem numberOfSlots_underflow (lengthOfWood uniformSlot : Nat) :
    (configDownNumberOfSlots
        { lengthOfWood := lengthOfWood, numberOfSlots := 1,
          uniformSlot := uniformSlot }).numberOfSlots = 0 ∧
    (configDownNumberOfSlots
        { lengthOfWood := lengthOfWood, numberOfSlots := 1,
          uniformSlot := uniformSlot }).uniformSlot
      = recalculateSlotSize lengthOfWood 0 ∧
    (configDownNumberOfSlots (configDownNumberOfSlots
        { lengthOfWood := lengthOfWood, numberOfSlots := 1,
          uniformSlot := uniformSlot })).numberOfSlots = 65535 := by
  have h1 : sub16 1 1 = 0 := by decide
  have h2 : sub16 0 1 = 65535 := by decide
  refine ⟨?_, ?_, ?_⟩ <;>
    simp [configDownNumberOfSlots, h1, h2]

/-- A byte write `EEPROM.write(a, byte(v))`: the EEPROM is a map from
addresses to bytes and the `byte` cast truncates to the low 8 bits. -/
def estore (e : Nat → Nat) (a v : Nat) : Nat → Nat :=
  fun x => if x = a then v % 256 else e x

/-- The configuration persisted by the customizable firmware
(CustomizableBoxCutter.ino globals): every scalar is a `uint16_t` except
the `uint32_t` `lengthOfWood`, and `programmaticSlots` is the 64-entry
slot array. -/
structure JointParameters where
  kerf : Nat
  motorSpeed : Nat
  slop : Nat
  lengthOfWood : Nat
  numberOfSlots : Nat
  maxAdvance : Nat
  uniformSlot : Nat
  programmaticSlots : List Nat
deriving DecidableEq, Repr

/-- The slot-array store loop of `writeSettings`
(CustomizableBoxCutter.ino lines 485-488): entry `i` is written as a high
byte at address `15 + i*2` and a low byte at `16 + i*2`. -/
def writeSlots : List Nat → Nat → (Nat → Nat) → (Nat → Nat)
  | [], _, e => e
  | s :: rest, i, e =>
      writeSlots rest (i + 1)
        (estore (estore e (15 + i * 2) (s / 256)) (16 + i * 2) (s % 256))

/-- Shallow embedding of `writeSettings()` from CustomizableBoxCutter.ino
(lines 450-503).  `kerf` and `maxAdvance` are each stored as a single
byte; `motorSpeed`, `slop`, `numberOfSlots` and `uniformSlot` as two
bytes; `lengthOfWood` via `EEPROM.put` as its four little-endian bytes;
then the 64 slot entries. -/
def writeSettings (p : JointParameters) (e : Nat → Nat) : Nat → Nat :=
  writeSlots p.programmaticSlots 0
    (estore (estore (estore (estore (estore (estore (estore (estore
     (estore (estore (estore (estore (estore (estore (estore e
      0 215)
      1 p.kerf)
      2 (p.motorSpeed / 256))
      3 (p.motorSpeed % 256))
      4 (p.slop / 256))
      5 (p.slop % 256))
      6 (p.lengthOfWood % 256))
      7 (p.lengthOfWood / 256 % 256))
      8 (p.lengthOfWood / 65536 % 256))
      9 (p.lengthOfWood / 16777216 % 256))
      10 (p.numberOfSlots / 256))
      11 (p.numberOfSlots % 256))
      12 p.maxAdvance)
      13 (p.uniformSlot / 256))
      14 (p.uniformSlot % 256))

/-- The slot-array read loop of `readSettings`
(CustomizableBoxCutter.ino lines 536-539), reading `n` entries starting at
entry index `i`. -/
def readSlots : Nat → Nat → (Nat → Nat) → List Nat
  | 0, _, _ => []
  | n + 1, i, e =>
      (e (15 + i * 2) * 256 + e (16 + i * 2)) ::
        readSlots n (i + 1) e

/-- Shallow embedding of `readSettings()` from CustomizableBoxCutter.ino
(lines 520-563). -/
def readSettings (e : Nat → Nat) : JointParameters :=
  { kerf := e 1
  , motorSpeed := e 2 * 256 + e 3
  , slop := e 4 * 256 + e 5
  , lengthOfWood :=
      e 6 + e 7 * 256 + e 8 * 65536 + e 9 * 16777216
  , numberOfSlots := e 10 * 256 + e 11
  , maxAdvance := e 12
  , uniformSlot := e 13 * 256 + e 14
  , programmaticSlots := readSlots 64 0 e }

theorem writeSlots_lower (slots : List Nat) :
    ∀ i e a, a < 15 + i * 2 → writeSlots slots i e a = e a := by
  induction slots with
  | nil => intro i e a _; rfl
  | cons s rest ih =>
    intro i e a ha
    rw [writeSlots]
    rw [ih (i + 1) _ a (by omega)]
    rw [estore, estore]
    rw [if_neg (by omega), if_neg (by omega)]

theorem readSlots_writeSlots (slots : List Nat) :
    ∀ i e, (∀ s ∈ slots, s < 65536) →
      readSlots slots.length i (writeSlots slots i e) = slots := by
  induction slots with
  | nil => intro i e _; rfl
  | cons s rest ih =>
    intro i e hall
    have hs : s < 65536 := hall s (List.mem_cons_self s rest)
    rw [List.length_cons, writeSlots, readSlots]
    rw [writeSlots_lower rest (i + 1) _ (15 + i * 2) (by omega)]
    rw [writeSlots_lower rest (i + 1) _ (16 + i * 2) (by omega)]
    rw [estore, estore]
    simp only [if_pos rfl, if_neg (show ¬ (15 + i * 2) = 16 + i * 2 by omega),
      eq_self_iff_true, if_true]
    rw [estore]
    simp only [if_pos rfl, eq_self_iff_true, if_true]
    have hhead : s / 256 % 256 * 256 + s % 256 % 256 = s := by omega
    rw [hhead]
    rw [ih (i + 1) _ (fun t ht => hall t (List.mem_cons_of_mem s ht))]

/-- Claim C6 counterexample: with `kerf = 300` (and otherwise default
values) the save/load round trip does not reproduce `kerf`: only the low
byte is persisted, so 300 is read back as 44. -/
theorem roundtrip_kerf_counterexample :
    (readSettings (writeSettings
      { kerf := 300, motorSpeed := 100, slop := 2, lengthOfWood := 4000,
        numberOfSlots := 6, maxAdvance := 120, uniformSlot := 500,
        programmaticSlots := List.replicate 64 0 } (fun _ => 0))).kerf
      = 44 ∧
    (44 : Nat) ≠ 300 := by
  constructor
  · rw [readSettings]
    simp only []
    rw [writeSettings]
    rw [writeSlots_lower _ 0 _ 1 (by omega)]
    simp [estore]
  · decide

/-- Claim C6 (amended): the save/load round trip reproduces every field of
`JointParameters` exactly — including all 64 pattern entries — provided
`kerf < 256` and `maxAdvance < 256`, since `writeSettings` persists each
of those two fields as a single byte. -/
theorem settings_roundtrip (p : JointParameters) (e : Nat → Nat)
    (hk : p.kerf < 256) (ha : p.maxAdvance < 256)
    (hm : p.motorSpeed < 65536) (hs : p.slop < 65536)
    (hl : p.lengthOfWood < 4294967296) (hn : p.numberOfSlots < 65536)
    (hu : p.uniformSlot < 65536)
    (hlen : p.programmaticSlots.length = 64)
    (hall : ∀ s ∈ p.programmaticSlots, s < 65536) :
    readSettings (writeSettings p e) = p := by
  obtain ⟨kerf, motorSpeed, slop, lengthOfWood, numberOfSlots,
    maxAdvance, uniformSlot, programmaticSlots⟩ := p
  simp only [] at hk ha hm hs hl hn hu hlen hall
  rw [readSettings, writeSettings]
  have hr : ∀ a : Nat, a < 15 →
      writeSlots programmaticSlots 0
        (estore (estore (estore (estore (estore (estore (estore (estore
         (estore (estore (estore (estore (estore (estore (estore e
          0 215) 1 kerf) 2 (motorSpeed / 256)) 3 (motorSpeed % 256))
          4 (slop / 256)) 5 (slop % 256)) 6 (lengthOfWood % 256))
          7 (lengthOfWood / 256 % 256)) 8 (lengthOfWood / 65536 % 256))
          9 (lengthOfWood / 16777216 % 256)) 10 (numberOfSlots / 256))
          11 (numberOfSlots % 256)) 12 maxAdvance)
          13 (uniformSlot / 256)) 14 (uniformSlot % 256)) a
      = (estore (estore (estore (estore (estore (estore (estore (estore
         (estore (estore (estore (estore (estore (estore (estore e
          0 215) 1 kerf) 2 (motorSpeed / 256)) 3 (motorSpeed % 256))
          4 (slop / 256)) 5 (slop % 256)) 6 (lengthOfWood % 256))
          7 (lengthOfWood / 256 % 256)) 8 (lengthOfWood / 65536 % 256))
          9 (lengthOfWood / 16777216 % 256)) 10 (numberOfSlots / 256))
          11 (numberOfSlots % 256)) 12 maxAdvance)
          13 (uniformSlot / 256)) 14 (uniformSlot % 256)) a := by
    intro a haz
    exact writeSlots_lower programmaticSlots 0 _ a (by omega)
  rw [hr 1 (by omega), hr 2 (by omega), hr 3 (by omega), hr 4 (by omega),
    hr 5 (by omega), hr 6 (by omega), hr 7 (by omega), hr 8 (by omega),
    hr 9 (by omega), hr 10 (by omega), hr 11 (by omega), hr 12 (by omega),
    hr 13 (by omega), hr 14 (by omega)]
  simp only [estore, if_pos rfl]
  norm_num
  refine ⟨by omega, by omega, by omega, by omega, by omega, by omega,
    by omega, ?_⟩
  rw [← hlen]
  exact readSlots_writeSlots programmaticSlots 0 _ hall

/-- Witness for `settings_roundtrip` at the default configuration of the
customizable firmware. -/
theorem settings_roundtrip_witness :
    ((123 : Nat) < 256 ∧ (120 : Nat) < 256) ∧
    readSettings (writeSettings
      { kerf := 123, motorSpeed := 100, slop := 2, lengthOfWood := 4000,
        numberOfSlots := 6, maxAdvance := 120, uniformSlot := 500,
        programmaticSlots :=
          List.replicate 32 125 ++ List.replicate 32 0 } (fun _ => 0))
      = { kerf := 123, motorSpeed := 100, slop := 2, lengthOfWood := 4000,
          numberOfSlots := 6, maxAdvance := 120, uniformSlot := 500,
          programmaticSlots :=
            List.replicate 32 125 ++ List.replicate 32 0 } :=
  ⟨⟨by decide, by decide⟩,
    settings_roundtrip _ _ (by decide) (by decide) (by decide) (by decide)
      (by decide) (by decide) (by decide) (by decide) (by decide)⟩

/-- Witness for `quadruple_spec` at the concrete recorded configuration
`slotWidth = 500`, `kerf = 123`, `slop = 2`. -/
theorem quadruple_spec_witness :
    ((2 : Nat) * 2 ≤ 500 ∧ (2 : Nat) ≤ 500 + 123) ∧
    ((determineMovementValues 500 2 123).initialDTMValley
      = (500 + 2) % 65536 ∧
    (determineMovementValues 500 2 123).initialDTMFinger
      = (500 + 123 - 2) % 65536 ∧
    (determineMovementValues 500 2 123).subDTMValley
      = (500 + 2 + (65536 - 123)) % 65536 ∧
    (determineMovementValues 500 2 123).subDTMFinger
      = (500 + 123 - 2) % 65536 ∧
    add16 ((determineMovementValues 500 2 123).subDTMValley) 123
      = (determineMovementValues 500 2 123).initialDTMValley ∧
    determineMovementValuesCustom 500 500 2 123
      = determineMovementValues 500 2 123) :=
  ⟨⟨by decide, by decide⟩,
    quadruple_spec 500 123 2 (by decide) (by decide) (by decide)
      (by decide) (by decide)⟩
